import Mathlib

/-!
Verification development for `motoinat.py` (convert Mushroom Observer
observation numbers to iNaturalist observation numbers).

The program is embedded shallowly:

* The iNaturalist API (reached through `requests.get` inside
  `_fetch_inat_data`) is modelled by an oracle
  `fetch : String → Option ApiResponse`, indexed by the candidate
  Mushroom Observer URL that fully determines the request parameters.
  `none` models the two `except` branches of `_fetch_inat_data`
  (`requests.exceptions.RequestException`, i.e. transport failure or bad
  HTTP status, and `json.JSONDecodeError`, i.e. a malformed response
  body), both of which make `_fetch_inat_data` return `None`.
* Printing is modelled by returning the list of printed lines (one
  `print` call = one line; a bare `print()` = `""`).  `logging` output is
  not modelled: it never affects control flow or the printed results.
* A Python-level uncaught exception (e.g. `data["results"][0]` on an
  empty list) is modelled by `Option`: `none` means the function raises.
* Strings are Lean strings; `str.strip` is `pyStrip` (drop surrounding
  whitespace) and `str.isdigit` is `pyIsDigit` ("non-empty and every
  character is a decimal digit"), the ASCII reading of the Python
  predicates.
-/

namespace Motoinat

/-- An observation record from the API.  The code reads `id` (the iNat
observation id), and optionally `species_guess` and `place_guess`
(absent keys are modelled by `none`; `obs_item.get(..., 'N/A')` in
`_format_and_print_observation`). -/
structure ObsItem where
  id : Nat
  species_guess : Option String
  place_guess : Option String
deriving DecidableEq

/-- A well-formed JSON body from the observations endpoint: the code
reads `total_results` (a JSON integer) and `results` (an array). -/
structure ApiResponse where
  total_results : Int
  results : List ObsItem
deriving DecidableEq

/-- One GET request issued by `_fetch_inat_data`: the base URL defined
there and the `params` dictionary built in the loop of
`find_inaturalist_observation` (lines 76-79). -/
structure ApiQuery where
  baseUrl : String
  field_mo_url : String
  verifiable : String
deriving DecidableEq

/-- `base_url` from `_fetch_inat_data` (line 18). -/
def api_base_url : String := "https://api.inaturalist.org/v1/observations"

/-- The query parameters built for one candidate URL:
`params = {"field:Mushroom Observer URL": mo_url, "verifiable": "any"}`. -/
def mkQuery (mo_url : String) : ApiQuery :=
  ⟨api_base_url, mo_url, "any"⟩

/-- The six candidate Mushroom Observer URL formats, in the order of the
`mo_urls` list literal (lines 66-73). -/
def mo_urls (mo_number : String) : List String :=
  [ "http://mushroomobserver.org/observer/show_observation/" ++ mo_number,
    "https://mushroomobserver.org/observer/show_observation/" ++ mo_number,
    "http://mushroomobserver.org/" ++ mo_number,
    "https://mushroomobserver.org/" ++ mo_number,
    "http://mushroomobserver.org/obs/" ++ mo_number,
    "https://mushroomobserver.org/obs/" ++ mo_number ]

/-- The candidate loop of `find_inaturalist_observation` (lines 75-85):
for each candidate URL in order, build the params, call
`_fetch_inat_data` (the oracle), and stop at the first response with
`data and data['total_results'] > 0`.  Returns the queries issued, in
order, and the accepted `(response, matched url)` if any. -/
def runCandidates (fetch : String → Option ApiResponse) :
    List String → List ApiQuery × Option (ApiResponse × String)
  | [] => ([], none)
  | u :: rest =>
    match fetch u with
    | some d =>
      if 0 < d.total_results then
        ([mkQuery u], some (d, u))
      else
        (mkQuery u :: (runCandidates fetch rest).1, (runCandidates fetch rest).2)
    | none =>
      (mkQuery u :: (runCandidates fetch rest).1, (runCandidates fetch rest).2)

/-- A candidate that the loop rejects: the fetch failed (`data` falsy)
or the well-formed response reported no results. -/
def isNoMatch (fetch : String → Option ApiResponse) (u : String) : Bool :=
  match fetch u with
  | none => true
  | some d => decide (d.total_results ≤ 0)

/-- `inat_url` as built at line 49 and in the default block. -/
def inat_url (id : Nat) : String :=
  "https://www.inaturalist.org/observations/" ++ toString id

/-- `_format_and_print_observation` (lines 48-62): the lines it prints.
`number_only_flag` is tested first, then `url_only_flag`, else the
default multi-line block with `'N/A'` placeholders for missing
`species_guess` / `place_guess`. -/
def format_and_print_observation (mo_number : String) (obs_item : ObsItem)
    (matched_mo_url : String) (url_only_flag number_only_flag : Bool) :
    List String :=
  if number_only_flag then
    [toString obs_item.id]
  else if url_only_flag then
    [inat_url obs_item.id]
  else
    [ "Mushroom Observer #" ++ mo_number ++ ":",
      "  iNaturalist Observation: " ++ inat_url obs_item.id,
      "  Species: " ++ obs_item.species_guess.getD "N/A",
      "  Location: " ++ obs_item.place_guess.getD "N/A",
      "  Matched URL: " ++ matched_mo_url,
      "" ]

/-- The "not found" lines printed after the loop (lines 87-93). -/
def not_found_lines (mo_number : String) (url_only number_only : Bool) :
    List String :=
  if url_only || number_only then
    ["Mushroom Observer #" ++ mo_number ++
      " has no iNaturalist observation associated with it."]
  else
    ["No iNaturalist observation found for Mushroom Observer #" ++ mo_number,
     ""]

/-- Output of one resolver call: the queries issued and the lines
printed to stdout. -/
structure FindOutput where
  queries : List ApiQuery
  printed : List String
deriving DecidableEq

/-- `find_inaturalist_observation` (lines 64-93).  The `debug_mode`
parameter only changes the logging level, not behaviour, and is
omitted.  On a match the code prints `data['results'][0]`; if
`results` is empty that index raises `IndexError`, modelled by
`none`. -/
def find_inaturalist_observation (fetch : String → Option ApiResponse)
    (mo_number : String) (url_only number_only : Bool) : Option FindOutput :=
  match runCandidates fetch (mo_urls mo_number) with
  | (qs, some (d, u)) =>
    match d.results with
    | obs_item :: _ =>
      some ⟨qs, format_and_print_observation mo_number obs_item u
                  url_only number_only⟩
    | [] => none
  | (qs, none) =>
    some ⟨qs, not_found_lines mo_number url_only number_only⟩

/-- `str.strip()`: drop whitespace from both ends.  (Whitespace is the
ASCII set `' '`, `'\t'`, `'\r'`, `'\n'` of `Char.isWhitespace`.) -/
def pyStrip (s : String) : String :=
  String.mk
    (((s.data.dropWhile Char.isWhitespace).reverse.dropWhile
        Char.isWhitespace).reverse)

/-- `str.isdigit()` on a token: false on the empty string, true iff
every character is a decimal digit. -/
def pyIsDigit (s : String) : Bool :=
  !s.data.isEmpty && s.data.all Char.isDigit

/-- The warning printed to `sys.stderr` for an invalid token
(line 145); it names the stripped token. -/
def warning_message (tok : String) : String :=
  "Warning: Invalid MO number \x27" ++ tok ++ "\x27 provided. Skipping."

/-- The usage line printed alongside the fatal no-valid-numbers error
(line 150). -/
def usage_line : String :=
  "Usage: python script.py [mo_numbers] [--file FILE] [--debug] [--url] [-q]"

/-- The fatal error printed when no valid numbers remain (line 149). -/
def no_valid_message : String :=
  "Error: No valid Mushroom Observer numbers provided."

/-- Result of the validation loop of `main` (lines 131-145): the valid
stripped numbers, in order, and the warnings printed to `sys.stderr`,
in order. -/
structure ValidationOutput where
  valid : List String
  warnings : List String
deriving DecidableEq

/-- The validation loop of `main` (lines 131-145): strip each token;
skip empty results silently (`continue`); keep tokens passing
`isdigit`; warn (on stderr) about the rest. -/
def validate_mo_numbers : List String → ValidationOutput
  | [] => ⟨[], []⟩
  | t :: rest =>
    let p := pyStrip t
    if p.data.isEmpty then
      validate_mo_numbers rest
    else if pyIsDigit p then
      ⟨p :: (validate_mo_numbers rest).valid, (validate_mo_numbers rest).warnings⟩
    else
      ⟨(validate_mo_numbers rest).valid,
        warning_message p :: (validate_mo_numbers rest).warnings⟩

/-- The outcome of `open(args.file, "r")` and the read (lines 112-126):
either the file's lines, or one of the three caught exception kinds. -/
inductive FileOutcome where
  | ok (lines : List String)
  | fileNotFound
  | permissionDenied
  | ioError (e : String)
deriving DecidableEq

/-- The fatal message printed (to stdout) for each file-read failure
(lines 119, 122, 125); `none` when the file was read successfully. -/
def file_error_message (name : String) : FileOutcome → Option String
  | .ok _ => none
  | .fileNotFound =>
    some ("Error reading file " ++ name ++ ": FileNotFoundError - File not found.")
  | .permissionDenied =>
    some ("Error reading file " ++ name ++ ": PermissionError - Permission denied.")
  | .ioError e =>
    some ("Error reading file " ++ name ++ ": IOError - " ++ e)

/-- The tokens collected from a successfully read file (lines 114-117):
each line stripped, empty results dropped. -/
def file_tokens : FileOutcome → List String
  | .ok lines => (lines.map pyStrip).filter (fun l => !l.data.isEmpty)
  | _ => []

/-- The parsed command line: positional `mo_numbers`, the optional
`--file` argument together with the outcome of opening it (the
filesystem is external, like the network oracle), and the `--url` /
`-q` flags.  `--debug` only raises the logging level and is omitted. -/
structure Args where
  mo_numbers : List String
  file : Option (String × FileOutcome)
  url : Bool
  q : Bool

/-- The observable behaviour of one `main` run that terminates via
`sys.exit` or by returning: the process exit status, the lines printed
to stdout, the lines printed to stderr, and the MO numbers passed to
`find_inaturalist_observation`, in order. -/
structure MainOutput where
  exitCode : Nat
  stdoutLines : List String
  stderrLines : List String
  resolved : List String
deriving DecidableEq

/-- The lookup loop of `main` (lines 153-155): returns the numbers
passed to the resolver and, unless some lookup raised, the
concatenation of all printed lines. -/
def run_lookups (fetch : String → Option ApiResponse)
    (url_only number_only : Bool) : List String → List String × Option (List String)
  | [] => ([], some [])
  | n :: rest =>
    match find_inaturalist_observation fetch n url_only number_only with
    | some out =>
      ((n :: (run_lookups fetch url_only number_only rest).1),
        ((run_lookups fetch url_only number_only rest).2).map (out.printed ++ ·))
    | none => ([n], none)

/-- `main` from the point where the token list is complete (lines
128-155): validate, exit 1 if nothing valid remains, else run the
lookups.  `none` models an uncaught exception escaping `main`. -/
def main_after_file (fetch : String → Option ApiResponse) (args : Args)
    (fileToks : List String) : Option MainOutput :=
  let v := validate_mo_numbers (args.mo_numbers ++ fileToks)
  if v.valid.isEmpty then
    some ⟨1, [no_valid_message, usage_line], v.warnings, []⟩
  else
    match run_lookups fetch args.url args.q v.valid with
    | (inv, some outLines) => some ⟨0, outLines, v.warnings, inv⟩
    | (_, none) => none

/-- `main` (lines 95-155), given the network oracle and the parsed
arguments: read the file if requested (exiting 1 with a message on
stdout if that fails), then validate and run the lookups. -/
def main_model (fetch : String → Option ApiResponse) (args : Args) :
    Option MainOutput :=
  match args.file with
  | some (name, fo) =>
    match file_error_message name fo with
    | some msg => some ⟨1, [msg], [], []⟩
    | none => main_after_file fetch args (file_tokens fo)
  | none => main_after_file fetch args []

/-- The tokens accepted by the validation rule as the specification
states it: after trimming surrounding whitespace, a token is kept (in
trimmed form) iff it is non-empty and consists entirely of decimal
digits. -/
def accepted_tokens_spec (tokens : List String) : List String :=
  (tokens.map pyStrip).filter
    (fun p => !p.data.isEmpty && p.data.all Char.isDigit)

/-! ### Helper lemmas about the candidate loop -/

theorem runCandidates_cons_none (f : String → Option ApiResponse)
    (u : String) (rest : List String) (h : f u = none) :
    runCandidates f (u :: rest) =
      (mkQuery u :: (runCandidates f rest).1, (runCandidates f rest).2) := by
  simp [runCandidates, h]

theorem runCandidates_cons_reject (f : String → Option ApiResponse)
    (u : String) (rest : List String) (d : ApiResponse)
    (h : f u = some d) (h2 : d.total_results ≤ 0) :
    runCandidates f (u :: rest) =
      (mkQuery u :: (runCandidates f rest).1, (runCandidates f rest).2) := by
  simp [runCandidates, h, show ¬(0 < d.total_results) by omega]

theorem runCandidates_cons_accept (f : String → Option ApiResponse)
    (u : String) (rest : List String) (d : ApiResponse)
    (h : f u = some d) (h2 : 0 < d.total_results) :
    runCandidates f (u :: rest) = ([mkQuery u], some (d, u)) := by
  simp [runCandidates, h, h2]

theorem isNoMatch_of_none (f : String → Option ApiResponse) (u : String)
    (h : f u = none) : isNoMatch f u = true := by
  simp [isNoMatch, h]

theorem isNoMatch_of_reject (f : String → Option ApiResponse) (u : String)
    (d : ApiResponse) (h : f u = some d) (h2 : d.total_results ≤ 0) :
    isNoMatch f u = true := by
  simp [isNoMatch, h, h2]

theorem isNoMatch_false_of_accept (f : String → Option ApiResponse)
    (u : String) (d : ApiResponse) (h : f u = some d)
    (h2 : 0 < d.total_results) : isNoMatch f u = false := by
  simp [isNoMatch, h]; omega

/-- When every candidate is rejected, every candidate is queried, in
order, and nothing is accepted. -/
theorem runCandidates_of_noMatch (f : String → Option ApiResponse) :
    ∀ urls : List String, (∀ u ∈ urls, isNoMatch f u = true) →
      runCandidates f urls = (urls.map mkQuery, none)
  | [], _ => rfl
  | u :: rest, h => by
    have ih := runCandidates_of_noMatch f rest
      (fun v hv => h v (List.mem_cons_of_mem _ hv))
    have hu : isNoMatch f u = true := h u (List.mem_cons_self _ _)
    cases hfu : f u with
    | none =>
      rw [runCandidates_cons_none f u rest hfu, ih]
      simp
    | some d =>
      have h2 : d.total_results ≤ 0 := by
        have := hu
        simp [isNoMatch, hfu] at this
        exact this
      rw [runCandidates_cons_reject f u rest d hfu h2, ih]
      simp

/-- The queries issued are exactly the `mkQuery` images of some prefix
of the candidate list. -/
theorem runCandidates_queries (f : String → Option ApiResponse) :
    ∀ urls : List String, ∃ l t : List String,
      (runCandidates f urls).1 = l.map mkQuery ∧ l ++ t = urls
  | [] => ⟨[], [], rfl, rfl⟩
  | u :: rest => by
    cases hfu : f u with
    | none =>
      obtain ⟨l, t, h1, h2⟩ := runCandidates_queries f rest
      exact ⟨u :: l, t, by rw [runCandidates_cons_none f u rest hfu]; simp [h1],
        by simp [h2]⟩
    | some d =>
      by_cases h2 : 0 < d.total_results
      · exact ⟨[u], rest,
          by rw [runCandidates_cons_accept f u rest d hfu h2]; rfl, rfl⟩
      · obtain ⟨l, t, hq1, hq2⟩ := runCandidates_queries f rest
        exact ⟨u :: l, t,
          by rw [runCandidates_cons_reject f u rest d hfu (by omega)]; simp [hq1],
          by simp [hq2]⟩

/-- If nothing was accepted, every candidate was queried. -/
theorem runCandidates_none_spec (f : String → Option ApiResponse) :
    ∀ urls qs, runCandidates f urls = (qs, none) → qs = urls.map mkQuery
  | [], qs, h => by simpa [runCandidates] using congrArg Prod.fst h.symm
  | u :: rest, qs, h => by
    cases hfu : f u with
    | none =>
      rw [runCandidates_cons_none f u rest hfu] at h
      obtain ⟨h1, h2⟩ := Prod.mk.injEq .. ▸ h
      have := runCandidates_none_spec f rest (runCandidates f rest).1
        (by rw [← h2])
      simp [← h1, this]
    | some d =>
      by_cases hpos : 0 < d.total_results
      · rw [runCandidates_cons_accept f u rest d hfu hpos] at h
        exact absurd (congrArg Prod.snd h) (by simp)
      · rw [runCandidates_cons_reject f u rest d hfu (by omega)] at h
        obtain ⟨h1, h2⟩ := Prod.mk.injEq .. ▸ h
        have := runCandidates_none_spec f rest (runCandidates f rest).1
          (by rw [← h2])
        simp [← h1, this]

/-- Characterization of an accepted candidate: it responded with a
positive `total_results`, every earlier candidate was rejected, the
queries are exactly the rejected prefix plus the accepted candidate,
and the candidates after the accepted one were never queried. -/
theorem runCandidates_some_spec (f : String → Option ApiResponse) :
    ∀ urls qs d u, runCandidates f urls = (qs, some (d, u)) →
      f u = some d ∧ 0 < d.total_results ∧
      qs = (urls.takeWhile (isNoMatch f)).map mkQuery ++ [mkQuery u] ∧
      (∀ v ∈ urls.takeWhile (isNoMatch f), isNoMatch f v = true) ∧
      ∃ later, urls.dropWhile (isNoMatch f) = u :: later
  | [], qs, d, u, h => by simpa [runCandidates] using congrArg Prod.snd h
  | u0 :: rest, qs, d, u, h => by
    cases hfu : f u0 with
    | none =>
      rw [runCandidates_cons_none f u0 rest hfu] at h
      obtain ⟨h1, h2⟩ := Prod.mk.injEq .. ▸ h
      obtain ⟨ha, hb, hc, hd, later, he⟩ :=
        runCandidates_some_spec f rest (runCandidates f rest).1 d u (by rw [← h2])
      have hnm : isNoMatch f u0 = true := isNoMatch_of_none f u0 hfu
      refine ⟨ha, hb, ?_, ?_, later, ?_⟩
      · rw [List.takeWhile_cons_of_pos hnm, ← h1, hc]; simp
      · intro v hv
        rw [List.takeWhile_cons_of_pos hnm] at hv
        rcases List.mem_cons.mp hv with hv | hv
        · exact hv ▸ hnm
        · exact hd v hv
      · rw [List.dropWhile_cons_of_pos hnm]; exact he
    | some d0 =>
      by_cases hpos : 0 < d0.total_results
      · rw [runCandidates_cons_accept f u0 rest d0 hfu hpos] at h
        obtain ⟨h1, h2⟩ := Prod.mk.injEq .. ▸ h
        obtain ⟨h3, h4⟩ := Prod.mk.injEq .. ▸ (Option.some.injEq .. ▸ h2)
        have hnm : isNoMatch f u0 = false :=
          isNoMatch_false_of_accept f u0 d0 hfu hpos
        subst h4
        refine ⟨h3 ▸ hfu, h3 ▸ hpos, ?_, ?_, rest, ?_⟩
        · rw [List.takeWhile_cons_of_neg (by simp [hnm]), ← h1]; simp
        · intro v hv
          rw [List.takeWhile_cons_of_neg (by simp [hnm])] at hv
          exact absurd hv (List.not_mem_nil v)
        · rw [List.dropWhile_cons_of_neg (by simp [hnm])]
      · rw [runCandidates_cons_reject f u0 rest d0 hfu (by omega)] at h
        obtain ⟨h1, h2⟩ := Prod.mk.injEq .. ▸ h
        obtain ⟨ha, hb, hc, hd, later, he⟩ :=
          runCandidates_some_spec f rest (runCandidates f rest).1 d u (by rw [← h2])
        have hnm : isNoMatch f u0 = true :=
          isNoMatch_of_reject f u0 d0 hfu (by omega)
        refine ⟨ha, hb, ?_, ?_, later, ?_⟩
        · rw [List.takeWhile_cons_of_pos hnm, ← h1, hc]; simp
        · intro v hv
          rw [List.takeWhile_cons_of_pos hnm] at hv
          rcases List.mem_cons.mp hv with hv | hv
          · exact hv ▸ hnm
          · exact hd v hv
        · rw [List.dropWhile_cons_of_pos hnm]; exact he

/-- Projecting the MO URL back out of the queries. -/
theorem map_field_mkQuery (l : List String) :
    (l.map mkQuery).map (fun q => ApiQuery.field_mo_url q) = l := by
  rw [List.map_map]
  exact List.map_id l

/-- When every candidate is rejected, the resolver completes normally
with the not-found lines after querying all candidates. -/
theorem find_of_all_noMatch (f : String → Option ApiResponse)
    (n : String) (uo no : Bool)
    (h : ∀ u ∈ mo_urls n, isNoMatch f u = true) :
    find_inaturalist_observation f n uo no =
      some ⟨(mo_urls n).map mkQuery, not_found_lines n uo no⟩ := by
  unfold find_inaturalist_observation
  rw [runCandidates_of_noMatch f (mo_urls n) h]

/-! ### Helper lemmas about the front end -/

/-- If the lookup loop completed, it visited exactly the given numbers,
in order. -/
theorem run_lookups_resolved (f : String → Option ApiResponse)
    (uo no : Bool) :
    ∀ ns : List String, ((run_lookups f uo no ns).2).isSome = true →
      (run_lookups f uo no ns).1 = ns
  | [], _ => rfl
  | n :: rest, h => by
    cases hf : find_inaturalist_observation f n uo no with
    | some out =>
      have h2 : ((run_lookups f uo no rest).2).isSome = true := by
        simp only [run_lookups, hf] at h
        exact Option.isSome_map .. ▸ h
      simp only [run_lookups, hf]
      rw [run_lookups_resolved f uo no rest h2]
    | none => simp [run_lookups, hf] at h

/-- If every individual lookup completes, the loop completes, visiting
every number. -/
theorem run_lookups_total (f : String → Option ApiResponse) (uo no : Bool)
    (h : ∀ n : String, (find_inaturalist_observation f n uo no).isSome = true) :
    ∀ ns : List String, ∃ ls, run_lookups f uo no ns = (ns, some ls)
  | [] => ⟨[], rfl⟩
  | n :: rest => by
    obtain ⟨out, hout⟩ := Option.isSome_iff_exists.mp (h n)
    obtain ⟨ls, hls⟩ := run_lookups_total f uo no h rest
    exact ⟨out.printed ++ ls, by simp [run_lookups, hout, hls]⟩

/-- The validation loop keeps exactly the tokens the specification's
rule accepts, in trimmed form, in order. -/
theorem validate_valid_eq (tokens : List String) :
    (validate_mo_numbers tokens).valid = accepted_tokens_spec tokens := by
  induction tokens with
  | nil => rfl
  | cons t rest ih =>
    by_cases h1 : (pyStrip t).data = []
    · simp [validate_mo_numbers, accepted_tokens_spec, h1, ih]
    · by_cases h2 : (pyStrip t).data.all Char.isDigit
      · simp [validate_mo_numbers, accepted_tokens_spec, pyIsDigit, h1, h2, ih]
      · simp [validate_mo_numbers, accepted_tokens_spec, pyIsDigit, h1, h2, ih]

/-- The warnings are exactly one per invalid token whose trimmed form
is non-empty, naming the trimmed token, in order; trimmed-empty tokens
produce nothing. -/
theorem validate_warnings_eq (tokens : List String) :
    (validate_mo_numbers tokens).warnings =
      tokens.filterMap (fun t =>
        if (pyStrip t).data.isEmpty then none
        else if pyIsDigit (pyStrip t) then none
        else some (warning_message (pyStrip t))) := by
  induction tokens with
  | nil => rfl
  | cons t rest ih =>
    by_cases h1 : (pyStrip t).data = []
    · simp [validate_mo_numbers, h1, ih, List.filterMap_cons]
    · by_cases h2 : pyIsDigit (pyStrip t)
      · simp [validate_mo_numbers, h1, h2, ih, List.filterMap_cons]
      · simp [validate_mo_numbers, h1, h2, ih, List.filterMap_cons]

/-- A file-read failure makes `main` exit 1 at once: the message goes
to stdout, nothing goes to stderr, and no lookup happens. -/
theorem main_model_file_err (fetch : String → Option ApiResponse)
    (pos : List String) (uo no : Bool) (name : String) (fo : FileOutcome)
    (msg : String) (h : file_error_message name fo = some msg) :
    main_model fetch ⟨pos, some (name, fo), uo, no⟩ = some ⟨1, [msg], [], []⟩ := by
  simp [main_model, h]

/-- When validation leaves nothing, `main` exits 1 before any lookup,
with the error and usage lines on stdout and the warnings on stderr. -/
theorem main_model_no_valid (fetch : String → Option ApiResponse)
    (tokens : List String) (uo no : Bool)
    (h : (validate_mo_numbers tokens).valid = []) :
    main_model fetch ⟨tokens, none, uo, no⟩ =
      some ⟨1, [no_valid_message, usage_line],
        (validate_mo_numbers tokens).warnings, []⟩ := by
  simp [main_model, main_after_file, h]

/-- When `main` terminates normally, the resolver was invoked exactly
on the validated numbers, in order. -/
theorem main_model_resolved (fetch : String → Option ApiResponse)
    (tokens : List String) (uo no : Bool) (out : MainOutput)
    (h : main_model fetch ⟨tokens, none, uo, no⟩ = some out) :
    out.resolved = (validate_mo_numbers tokens).valid := by
  simp only [main_model, main_after_file, List.append_nil] at h
  by_cases hv : (validate_mo_numbers tokens).valid.isEmpty
  · rw [if_pos hv] at h
    cases h
    exact (List.isEmpty_iff.mp hv).symm
  · rw [if_neg hv] at h
    rcases hr : run_lookups fetch uo no (validate_mo_numbers tokens).valid
      with ⟨inv, r⟩
    rw [hr] at h
    cases r with
    | some ls =>
      cases h
      have : ((run_lookups fetch uo no (validate_mo_numbers tokens).valid).2).isSome = true := by
        rw [hr]; rfl
      have := run_lookups_resolved fetch uo no _ this
      rw [hr] at this
      exact this
    | none => cases h

/-- With a completely failing network, every lookup still returns. -/
theorem find_isSome_of_fetch_none (f : String → Option ApiResponse)
    (hf : ∀ u, f u = none) (n : String) (uo no : Bool) :
    (find_inaturalist_observation f n uo no).isSome = true := by
  rw [find_of_all_noMatch f n uo no (fun u _ => isNoMatch_of_none f u (hf u))]
  rfl

/-- With a completely failing network and at least one valid number,
`main` completes normally with exit status 0. -/
theorem main_model_all_fail (fetch : String → Option ApiResponse)
    (tokens : List String) (uo no : Bool)
    (hf : ∀ u, fetch u = none)
    (h : ¬(validate_mo_numbers tokens).valid = []) :
    ∃ lines, main_model fetch ⟨tokens, none, uo, no⟩ =
      some ⟨0, lines, (validate_mo_numbers tokens).warnings,
        (validate_mo_numbers tokens).valid⟩ := by
  obtain ⟨ls, hls⟩ := run_lookups_total fetch uo no
    (fun n => find_isSome_of_fetch_none fetch hf n uo no)
    (validate_mo_numbers tokens).valid
  exact ⟨ls, by simp [main_model, main_after_file, hls, h]⟩

/-- Whenever a run without `--file` terminates normally, the warnings
are exactly what went to stderr, the resolver was invoked on exactly
the validated numbers, and the exit status is 0 unless validation left
nothing (in which case it is 1 and nothing was resolved). -/
theorem main_model_no_file_spec (fetch : String → Option ApiResponse)
    (tokens : List String) (uo no : Bool) (out : MainOutput)
    (h : main_model fetch ⟨tokens, none, uo, no⟩ = some out) :
    out.stderrLines = (validate_mo_numbers tokens).warnings ∧
    out.resolved = (validate_mo_numbers tokens).valid ∧
    (((validate_mo_numbers tokens).valid = [] ∧ out.exitCode = 1 ∧
        out.stdoutLines = [no_valid_message, usage_line] ∧ out.resolved = []) ∨
      ((validate_mo_numbers tokens).valid ≠ [] ∧ out.exitCode = 0)) := by
  simp only [main_model, main_after_file, List.append_nil] at h
  by_cases hv : (validate_mo_numbers tokens).valid.isEmpty
  · rw [if_pos hv] at h
    cases h
    have hnil := List.isEmpty_iff.mp hv
    exact ⟨rfl, hnil.symm, Or.inl ⟨hnil, rfl, rfl, rfl⟩⟩
  · rw [if_neg hv] at h
    have hne : (validate_mo_numbers tokens).valid ≠ [] := by
      intro hh
      exact hv (by simp [hh])
    rcases hr : run_lookups fetch uo no (validate_mo_numbers tokens).valid
      with ⟨inv, r⟩
    rw [hr] at h
    cases r with
    | some ls =>
      cases h
      have hs : ((run_lookups fetch uo no (validate_mo_numbers tokens).valid).2).isSome = true := by
        rw [hr]; rfl
      have hres := run_lookups_resolved fetch uo no _ hs
      rw [hr] at hres
      exact ⟨rfl, hres, Or.inr ⟨hne, rfl⟩⟩
    | none => cases h

/-! ### Claim theorems -/

/-- C1: For every MO number the resolver builds exactly the six
candidate URLs in the fixed documented order; each query it issues
goes to the iNaturalist observations endpoint with the candidate as
the `field:Mushroom Observer URL` parameter and `verifiable` set to
`"any"`; the queried candidates are an initial segment of the six (one
query per candidate, in order), all six are queried when no candidate
matches, and never more than six. -/
theorem six_candidates_fixed_order (fetch : String → Option ApiResponse)
    (n : String) :
    mo_urls n =
      [ "http://mushroomobserver.org/observer/show_observation/" ++ n,
        "https://mushroomobserver.org/observer/show_observation/" ++ n,
        "http://mushroomobserver.org/" ++ n,
        "https://mushroomobserver.org/" ++ n,
        "http://mushroomobserver.org/obs/" ++ n,
        "https://mushroomobserver.org/obs/" ++ n ] ∧
    (∃ t, ((runCandidates fetch (mo_urls n)).1.map
        (fun q => ApiQuery.field_mo_url q)) ++ t = mo_urls n) ∧
    (∀ q ∈ (runCandidates fetch (mo_urls n)).1,
      q.baseUrl = api_base_url ∧ q.verifiable = "any") ∧
    ((runCandidates fetch (mo_urls n)).2 = none →
      (runCandidates fetch (mo_urls n)).1 = (mo_urls n).map mkQuery) ∧
    (runCandidates fetch (mo_urls n)).1.length ≤ 6 := by
  obtain ⟨l, t, h1, h2⟩ := runCandidates_queries fetch (mo_urls n)
  refine ⟨rfl, ⟨t, by rw [h1, map_field_mkQuery, h2]⟩, ?_, ?_, ?_⟩
  · intro q hq
    rw [h1] at hq
    obtain ⟨v, _, rfl⟩ := List.mem_map.mp hq
    exact ⟨rfl, rfl⟩
  · intro hnone
    exact runCandidates_none_spec fetch (mo_urls n) _ (by rw [← hnone])
  · have hlen := congrArg List.length h2
    rw [List.length_append] at hlen
    have h6 : (mo_urls n).length = 6 := rfl
    rw [h1, List.length_map]
    omega

theorem six_candidates_fixed_order_witness :
    (runCandidates (fun _ => none) (mo_urls "12345")).1 =
      (mo_urls "12345").map mkQuery :=
  (six_candidates_fixed_order (fun _ => none) "12345").2.2.2.1 (by decide)

/-- C2: At most one response per lookup is accepted (the loop returns
an `Option`): when one is, the accepted candidate answered with a
positive `total_results`, every earlier candidate in the fixed order
was rejected, no candidate after the accepted one was queried, and the
emitted match uses the first record of the accepted response's
results. -/
theorem first_match_accepted (fetch : String → Option ApiResponse)
    (n : String) (qs : List ApiQuery) (d : ApiResponse) (u : String)
    (h : runCandidates fetch (mo_urls n) = (qs, some (d, u))) :
    fetch u = some d ∧ 0 < d.total_results ∧
    qs = ((mo_urls n).takeWhile (isNoMatch fetch)).map mkQuery ++ [mkQuery u] ∧
    (∀ v ∈ (mo_urls n).takeWhile (isNoMatch fetch), isNoMatch fetch v = true) ∧
    (∃ later, (mo_urls n).dropWhile (isNoMatch fetch) = u :: later) ∧
    (∀ obs rest2 uo no, d.results = obs :: rest2 →
      find_inaturalist_observation fetch n uo no =
        some ⟨qs, format_and_print_observation n obs u uo no⟩) := by
  obtain ⟨h1, h2, h3, h4, h5⟩ := runCandidates_some_spec fetch (mo_urls n) qs d u h
  refine ⟨h1, h2, h3, h4, h5, ?_⟩
  intro obs rest2 uo no hres
  simp [find_inaturalist_observation, h, hres]

theorem first_match_accepted_witness :
    find_inaturalist_observation
      (fun s =>
        if s = "http://mushroomobserver.org/observer/show_observation/7" then
          some ⟨1, [⟨42, none, none⟩]⟩
        else none) "7" false true =
      some ⟨[mkQuery "http://mushroomobserver.org/observer/show_observation/7"],
        ["42"]⟩ := by
  have h := (first_match_accepted
    (fun s =>
      if s = "http://mushroomobserver.org/observer/show_observation/7" then
        some ⟨1, [⟨42, none, none⟩]⟩
      else none) "7"
    [mkQuery "http://mushroomobserver.org/observer/show_observation/7"]
    ⟨1, [⟨42, none, none⟩]⟩
    "http://mushroomobserver.org/observer/show_observation/7"
    (by decide)).2.2.2.2.2 ⟨42, none, none⟩ [] false true rfl
  exact h.trans (by decide)

/-- C3: A failed fetch for one candidate (transport failure or
malformed body, i.e. the oracle answering `none`) only prepends that
candidate's query and leaves the rest of the loop unchanged; and when
every candidate fails or is rejected, the lookup still completes,
querying all six candidates and emitting the not-found result. -/
theorem candidate_failure_is_local (fetch : String → Option ApiResponse) :
    (∀ u rest, fetch u = none →
      runCandidates fetch (u :: rest) =
        (mkQuery u :: (runCandidates fetch rest).1,
          (runCandidates fetch rest).2)) ∧
    (∀ n uo no, (∀ u ∈ mo_urls n, isNoMatch fetch u = true) →
      find_inaturalist_observation fetch n uo no =
        some ⟨(mo_urls n).map mkQuery, not_found_lines n uo no⟩) :=
  ⟨fun u rest h => runCandidates_cons_none fetch u rest h,
   fun n uo no h => find_of_all_noMatch fetch n uo no h⟩

theorem candidate_failure_is_local_witness :
    find_inaturalist_observation (fun _ => none) "11111" false false =
      some ⟨(mo_urls "11111").map mkQuery,
        not_found_lines "11111" false false⟩ :=
  (candidate_failure_is_local (fun _ => none)).2 "11111" false false (by decide)

/-- C4: A token is accepted exactly when its trimmed form is non-empty
and all decimal digits, and the accepted tokens — in trimmed form, in
order — are exactly the numbers passed to the resolver on a normal
run. -/
theorem token_validation_rule (tokens : List String) :
    (validate_mo_numbers tokens).valid = accepted_tokens_spec tokens ∧
    (∀ fetch uo no out,
      main_model fetch ⟨tokens, none, uo, no⟩ = some out →
      out.resolved = (validate_mo_numbers tokens).valid) :=
  ⟨validate_valid_eq tokens,
   fun fetch uo no out h => main_model_resolved fetch tokens uo no out h⟩

theorem token_validation_rule_witness :
    (validate_mo_numbers [" 123 ", "abc"]).valid =
      accepted_tokens_spec [" 123 ", "abc"] ∧
    MainOutput.resolved
        ⟨0, not_found_lines "123" false false, [warning_message "abc"], ["123"]⟩ =
      (validate_mo_numbers [" 123 ", "abc"]).valid :=
  ⟨(token_validation_rule [" 123 ", "abc"]).1,
   (token_validation_rule [" 123 ", "abc"]).2 (fun _ => none) false false
     ⟨0, not_found_lines "123" false false, [warning_message "abc"], ["123"]⟩
     (by decide)⟩

/-- C5 counterexample: the token `"   "` is invalid under the
validation rule (it trims to the empty string), yet a run containing
it emits no warning at all: the diagnostic stream stays empty, so no
warning names that token. -/
theorem invalid_token_warning_counterexample :
    (pyStrip "   ").data.isEmpty = true ∧
    main_model (fun _ => none) ⟨["123", "   "], none, false, false⟩ =
      some ⟨0, not_found_lines "123" false false, [], ["123"]⟩ := by
  decide

/-- C5 (amended): every invalid token whose trimmed form is non-empty
produces exactly one warning, naming the trimmed token, in order
(tokens that trim to empty are skipped silently); and on the mixed
input `["123", "abc", "456"]` the resolver is invoked exactly twice,
for `123` and `456`, while the error stream carries exactly the one
warning naming `abc`. -/
theorem invalid_token_warning_amended (tokens : List String) :
    ((validate_mo_numbers tokens).warnings =
      tokens.filterMap (fun t =>
        if (pyStrip t).data.isEmpty then none
        else if pyIsDigit (pyStrip t) then none
        else some (warning_message (pyStrip t)))) ∧
    (∀ fetch uo no out,
      main_model fetch ⟨["123", "abc", "456"], none, uo, no⟩ = some out →
      out.resolved = ["123", "456"] ∧
      out.stderrLines = [warning_message "abc"]) := by
  refine ⟨validate_warnings_eq tokens, ?_⟩
  intro fetch uo no out h
  obtain ⟨h1, h2, _⟩ := main_model_no_file_spec fetch ["123", "abc", "456"]
    uo no out h
  constructor
  · rw [h2]; decide
  · rw [h1]; decide

theorem invalid_token_warning_amended_witness :
    MainOutput.resolved
        ⟨0, not_found_lines "123" false false ++ not_found_lines "456" false false,
          [warning_message "abc"], ["123", "456"]⟩ = ["123", "456"] ∧
    MainOutput.stderrLines
        ⟨0, not_found_lines "123" false false ++ not_found_lines "456" false false,
          [warning_message "abc"], ["123", "456"]⟩ = [warning_message "abc"] :=
  (invalid_token_warning_amended []).2 (fun _ => none) false false
    ⟨0, not_found_lines "123" false false ++ not_found_lines "456" false false,
      [warning_message "abc"], ["123", "456"]⟩
    (by decide)

/-- C6: each file-read failure exits with status 1 at once, before any
lookup; zero valid numbers after validation exits with status 1 before
any lookup; a normal run either completed its lookups with status 0 or
stopped with status 1 having resolved nothing; and with every lookup
ending not-found (the network always failing) and at least one valid
number, the run completes with status 0. -/
theorem exit_status_contract (fetch : String → Option ApiResponse)
    (pos : List String) (name e : String) (uo no : Bool) :
    (main_model fetch ⟨pos, some (name, FileOutcome.fileNotFound), uo, no⟩ =
      some ⟨1, ["Error reading file " ++ name ++
        ": FileNotFoundError - File not found."], [], []⟩) ∧
    (main_model fetch ⟨pos, some (name, FileOutcome.permissionDenied), uo, no⟩ =
      some ⟨1, ["Error reading file " ++ name ++
        ": PermissionError - Permission denied."], [], []⟩) ∧
    (main_model fetch ⟨pos, some (name, FileOutcome.ioError e), uo, no⟩ =
      some ⟨1, ["Error reading file " ++ name ++ ": IOError - " ++ e], [], []⟩) ∧
    ((validate_mo_numbers pos).valid = [] →
      main_model fetch ⟨pos, none, uo, no⟩ =
        some ⟨1, [no_valid_message, usage_line],
          (validate_mo_numbers pos).warnings, []⟩) ∧
    (∀ out, main_model fetch ⟨pos, none, uo, no⟩ = some out →
      out.exitCode = 0 ∨ (out.exitCode = 1 ∧ out.resolved = [])) ∧
    ((∀ u, fetch u = none) → (validate_mo_numbers pos).valid ≠ [] →
      ∃ lines, main_model fetch ⟨pos, none, uo, no⟩ =
        some ⟨0, lines, (validate_mo_numbers pos).warnings,
          (validate_mo_numbers pos).valid⟩) := by
  refine ⟨main_model_file_err fetch pos uo no name _ _ rfl,
    main_model_file_err fetch pos uo no name _ _ rfl,
    main_model_file_err fetch pos uo no name _ _ rfl,
    main_model_no_valid fetch pos uo no, ?_,
    main_model_all_fail fetch pos uo no⟩
  intro out h
  obtain ⟨_, _, h3⟩ := main_model_no_file_spec fetch pos uo no out h
  rcases h3 with ⟨_, he, _, hr⟩ | ⟨_, he⟩
  · exact Or.inr ⟨he, hr⟩
  · exact Or.inl he

theorem exit_status_contract_witness :
    (main_model (fun _ => none)
        ⟨["123"], some ("input.txt", FileOutcome.fileNotFound), false, false⟩ =
      some ⟨1, ["Error reading file input.txt: FileNotFoundError - File not found."],
        [], []⟩) ∧
    (∃ lines, main_model (fun _ => none) ⟨["123"], none, false, false⟩ =
      some ⟨0, lines, (validate_mo_numbers ["123"]).warnings,
        (validate_mo_numbers ["123"]).valid⟩) :=
  ⟨(exit_status_contract (fun _ => none) ["123"] "input.txt" "x" false false).1,
   (exit_status_contract (fun _ => none) ["123"] "input.txt" "x" false false).2.2.2.2.2
     (fun _ => rfl) (by decide)⟩

/-- C7: when both the URL-only and the number-only flag are set, the
number-only format wins: a match prints only the numeric iNat id (not
the URL, not the default block), and the whole resolver behaves
exactly as with the number-only flag alone. -/
theorem number_only_precedence (fetch : String → Option ApiResponse)
    (n mo_number matched : String) (obs : ObsItem) :
    format_and_print_observation mo_number obs matched true true =
      [toString obs.id] ∧
    format_and_print_observation mo_number obs matched true true =
      format_and_print_observation mo_number obs matched false true ∧
    find_inaturalist_observation fetch n true true =
      find_inaturalist_observation fetch n false true := by
  refine ⟨rfl, rfl, ?_⟩
  unfold find_inaturalist_observation
  cases hr : runCandidates fetch (mo_urls n) with
  | mk qs r =>
    cases r with
    | none => rfl
    | some p =>
      cases p with
      | mk d u =>
        cases hres : d.results with
        | nil => rfl
        | cons a l => rfl

/-- C8: when all six candidates fail or return zero results, URL-only
mode and number-only mode print the same single "no observation
associated" line, and default mode prints the default not-found
message (with its trailing blank line). -/
theorem not_found_shapes (fetch : String → Option ApiResponse) (n : String)
    (h : ∀ u ∈ mo_urls n, isNoMatch fetch u = true) :
    (find_inaturalist_observation fetch n true false =
      some ⟨(mo_urls n).map mkQuery,
        ["Mushroom Observer #" ++ n ++
          " has no iNaturalist observation associated with it."]⟩) ∧
    (find_inaturalist_observation fetch n false true =
      some ⟨(mo_urls n).map mkQuery,
        ["Mushroom Observer #" ++ n ++
          " has no iNaturalist observation associated with it."]⟩) ∧
    (find_inaturalist_observation fetch n false false =
      some ⟨(mo_urls n).map mkQuery,
        ["No iNaturalist observation found for Mushroom Observer #" ++ n,
          ""]⟩) :=
  ⟨(find_of_all_noMatch fetch n true false h).trans rfl,
   (find_of_all_noMatch fetch n false true h).trans rfl,
   (find_of_all_noMatch fetch n false false h).trans rfl⟩

theorem not_found_shapes_witness :
    find_inaturalist_observation (fun _ => none) "0" false true =
      some ⟨(mo_urls "0").map mkQuery,
        ["Mushroom Observer #0 has no iNaturalist observation associated with it."]⟩ :=
  ((not_found_shapes (fun _ => none) "0" (by decide)).2.1).trans (by decide)

/-- C9: in default mode a matched record is printed as the block with
the MO number, the iNat URL built from the record's id, the species
guess (placeholder `N/A` when absent), the place guess (placeholder
`N/A` when absent) and the matched candidate URL; missing optional
fields never make the lookup abort. -/
theorem default_block_contents (fetch : String → Option ApiResponse)
    (n : String) (qs : List ApiQuery) (d : ApiResponse) (u : String)
    (obs : ObsItem) (rest2 : List ObsItem)
    (h1 : runCandidates fetch (mo_urls n) = (qs, some (d, u)))
    (h2 : d.results = obs :: rest2) :
    find_inaturalist_observation fetch n false false =
      some ⟨qs, format_and_print_observation n obs u false false⟩ ∧
    format_and_print_observation n obs u false false =
      [ "Mushroom Observer #" ++ n ++ ":",
        "  iNaturalist Observation: " ++ inat_url obs.id,
        "  Species: " ++ obs.species_guess.getD "N/A",
        "  Location: " ++ obs.place_guess.getD "N/A",
        "  Matched URL: " ++ u,
        "" ] ∧
    inat_url obs.id =
      "https://www.inaturalist.org/observations/" ++ toString obs.id := by
  refine ⟨?_, rfl, rfl⟩
  simp [find_inaturalist_observation, h1, h2]

theorem default_block_contents_witness :
    find_inaturalist_observation
      (fun s =>
        if s = "http://mushroomobserver.org/observer/show_observation/3" then
          some ⟨1, [⟨99, none, none⟩]⟩
        else none) "3" false false =
      some ⟨[mkQuery "http://mushroomobserver.org/observer/show_observation/3"],
        [ "Mushroom Observer #3:",
          "  iNaturalist Observation: https://www.inaturalist.org/observations/99",
          "  Species: N/A",
          "  Location: N/A",
          "  Matched URL: http://mushroomobserver.org/observer/show_observation/3",
          "" ]⟩ := by
  have h := (default_block_contents
    (fun s =>
      if s = "http://mushroomobserver.org/observer/show_observation/3" then
        some ⟨1, [⟨99, none, none⟩]⟩
      else none) "3"
    [mkQuery "http://mushroomobserver.org/observer/show_observation/3"]
    ⟨1, [⟨99, none, none⟩]⟩
    "http://mushroomobserver.org/observer/show_observation/3"
    ⟨99, none, none⟩ [] (by decide) rfl).1
  exact h.trans (by decide)

/-- C10: the fatal messages — each "Error reading file ..." message and
the no-valid-numbers error with its usage line — are printed on the
standard output stream while the error stream gets none of them (only
the per-token warnings, one per invalid non-blank token, naming its
trimmed form, go there). -/
theorem fatal_errors_on_stdout (fetch : String → Option ApiResponse)
    (pos : List String) (name e : String) (uo no : Bool) :
    ((main_model fetch ⟨pos, some (name, FileOutcome.fileNotFound), uo, no⟩).map
        MainOutput.stdoutLines =
      some ["Error reading file " ++ name ++
        ": FileNotFoundError - File not found."]) ∧
    ((main_model fetch ⟨pos, some (name, FileOutcome.fileNotFound), uo, no⟩).map
        MainOutput.stderrLines = some []) ∧
    ((main_model fetch ⟨pos, some (name, FileOutcome.permissionDenied), uo, no⟩).map
        MainOutput.stdoutLines =
      some ["Error reading file " ++ name ++
        ": PermissionError - Permission denied."]) ∧
    ((main_model fetch ⟨pos, some (name, FileOutcome.permissionDenied), uo, no⟩).map
        MainOutput.stderrLines = some []) ∧
    ((main_model fetch ⟨pos, some (name, FileOutcome.ioError e), uo, no⟩).map
        MainOutput.stdoutLines =
      some ["Error reading file " ++ name ++ ": IOError - " ++ e]) ∧
    ((main_model fetch ⟨pos, some (name, FileOutcome.ioError e), uo, no⟩).map
        MainOutput.stderrLines = some []) ∧
    ((validate_mo_numbers pos).valid = [] →
      (main_model fetch ⟨pos, none, uo, no⟩).map MainOutput.stdoutLines =
        some [no_valid_message, usage_line] ∧
      (main_model fetch ⟨pos, none, uo, no⟩).map MainOutput.stderrLines =
        some (validate_mo_numbers pos).warnings) ∧
    (∀ tok, ¬(pyStrip tok).data.isEmpty = true → pyIsDigit (pyStrip tok) = false →
      (validate_mo_numbers [tok]).warnings = [warning_message (pyStrip tok)]) := by
  refine ⟨?_, ?_, ?_, ?_, ?_, ?_, ?_, ?_⟩
  · rw [main_model_file_err fetch pos uo no name FileOutcome.fileNotFound
      ("Error reading file " ++ name ++ ": FileNotFoundError - File not found.")
      rfl]
    rfl
  · rw [main_model_file_err fetch pos uo no name FileOutcome.fileNotFound
      ("Error reading file " ++ name ++ ": FileNotFoundError - File not found.")
      rfl]
    rfl
  · rw [main_model_file_err fetch pos uo no name FileOutcome.permissionDenied
      ("Error reading file " ++ name ++ ": PermissionError - Permission denied.")
      rfl]
    rfl
  · rw [main_model_file_err fetch pos uo no name FileOutcome.permissionDenied
      ("Error reading file " ++ name ++ ": PermissionError - Permission denied.")
      rfl]
    rfl
  · rw [main_model_file_err fetch pos uo no name (FileOutcome.ioError e)
      ("Error reading file " ++ name ++ ": IOError - " ++ e) rfl]
    rfl
  · rw [main_model_file_err fetch pos uo no name (FileOutcome.ioError e)
      ("Error reading file " ++ name ++ ": IOError - " ++ e) rfl]
    rfl
  · intro h
    rw [main_model_no_valid fetch pos uo no h]
    exact ⟨rfl, rfl⟩
  · intro tok h1 h2
    have h1x : ¬(pyStrip tok).data = [] := fun hh => h1 (by simp [hh])
    simp [validate_mo_numbers, h1x, h2]

theorem fatal_errors_on_stdout_witness :
    (main_model (fun _ => none)
        ⟨[], some ("nums.txt", FileOutcome.fileNotFound), false, false⟩).map
      MainOutput.stderrLines = some [] ∧
    (validate_mo_numbers ["xyz"]).warnings = [warning_message (pyStrip "xyz")] :=
  ⟨(fatal_errors_on_stdout (fun _ => none) [] "nums.txt" "x" false false).2.1,
   (fatal_errors_on_stdout (fun _ => none) [] "nums.txt" "x" false false).2.2.2.2.2.2.2
     "xyz" (by decide) (by decide)⟩

end Motoinat
